import Mathlib

/-!
# Formal model of the T-Flow triage backend

Shallow embedding of `backend/triage_core.py` and `backend/main.py`.
Python strings are modelled as Lean `String` (lists of characters);
Python exceptions as `Except String`; the external AI provider and the
external store are modelled as explicit outcome parameters
(`Except String …`) passed to the functions that call them, so the
embedded functions are pure.
-/

set_option autoImplicit false

namespace TFlow

instance {ε α : Type} [DecidableEq ε] [DecidableEq α] : DecidableEq (Except ε α) := fun x y =>
  match x, y with
  | Except.error a, Except.error b =>
    if h : a = b then isTrue (by rw [h]) else isFalse (fun hc => by cases hc; exact h rfl)
  | Except.error _, Except.ok _ => isFalse (fun hc => by cases hc)
  | Except.ok _, Except.error _ => isFalse (fun hc => by cases hc)
  | Except.ok a, Except.ok b =>
    if h : a = b then isTrue (by rw [h]) else isFalse (fun hc => by cases hc; exact h rfl)

/-- Python `str.startswith` on character lists: `sub` is a prefix of `hay`. -/
def startsWithList : List Char → List Char → Bool
  | _, [] => true
  | [], _ :: _ => false
  | h :: hs, s :: ss => h = s && startsWithList hs ss

/-- Python `sub in hay` substring test on character lists. -/
def containsList (sub : List Char) : List Char → Bool
  | [] => sub.isEmpty
  | c :: t => startsWithList (c :: t) sub || containsList sub t

/-- Python `sub in hay` on strings. -/
def containsSub (hay sub : String) : Bool :=
  containsList sub.toList hay.toList

/-- Python `str.strip()` on a character list: drop whitespace at both ends. -/
def stripList (l : List Char) : List Char :=
  ((l.dropWhile Char.isWhitespace).reverse.dropWhile Char.isWhitespace).reverse

/-- Python `str.strip()`. -/
def pyStrip (s : String) : String :=
  String.mk (stripList s.toList)

/-- Python `str.lower()` (the keyword alphabet is ASCII, where
`Char.toLower` agrees with Python). -/
def pyLower (s : String) : String :=
  String.mk (s.toList.map Char.toLower)

/-- Python `str.capitalize()`: first character upper-cased, rest lower-cased. -/
def pyCapitalize (s : String) : String :=
  match s.toList with
  | [] => ""
  | c :: cs => String.mk (c.toUpper :: cs.map Char.toLower)

/-- Python `str.split('\n')`: split at every newline, keeping empty parts. -/
def splitOnNl : List Char → List (List Char)
  | [] => [[]]
  | c :: cs =>
    let r := splitOnNl cs
    if c = '\n' then [] :: r
    else
      match r with
      | [] => [[c]]
      | x :: xs => (c :: x) :: xs

/-! ## Rule-based classifier (`triage_core.rule_based_triage`) -/

/-- The predicate the classifier applies to one level entry: some keyword of
the group occurs in the (lower-cased) text. -/
def levelMatches (text : String) (li : String × List String) : Bool :=
  li.2.any (fun kw => containsSub text kw)

/-- The ordered level table from `rule_based_triage`. -/
def levels : List (String × List String) :=
  [("Critical", ["seizure", "loss of consciousness", "coma"]),
   ("Urgent", ["vomiting", "blurred vision", "slurred speech"]),
   ("Moderate", ["headache", "neck pain"]),
   ("Low", ["dizziness", "mild pain", "tiredness"])]

/-- `triage_core.rule_based_triage`: lower-case the text, walk the level
table in order, return the label of the first group with a substring
match, defaulting to `"Moderate"`. -/
def rule_based_triage (symptoms_text : String) : String :=
  let text := pyLower symptoms_text
  match levels.find? (levelMatches text) with
  | some li => li.1
  | none => "Moderate"

/-- The classifier as the spec words it (section 4.2): four nested
priority tests, Critical first, default Moderate.  Used only to compare
against `rule_based_triage`. -/
def ruleBasedTriageSpec (s : String) : String :=
  let t := pyLower s
  if (["seizure", "loss of consciousness", "coma"].any (fun kw => containsSub t kw)) then "Critical"
  else if (["vomiting", "blurred vision", "slurred speech"].any (fun kw => containsSub t kw)) then "Urgent"
  else if (["headache", "neck pain"].any (fun kw => containsSub t kw)) then "Moderate"
  else if (["dizziness", "mild pain", "tiredness"].any (fun kw => containsSub t kw)) then "Low"
  else "Moderate"

example : rule_based_triage "mild headache" = "Moderate" := by decide
example : rule_based_triage "seizure and tiredness" = "Critical" := by decide
example : rule_based_triage "" = "Moderate" := by decide
example : rule_based_triage "SEIZURE" = "Critical" := by decide

/-! ## AI classifier adapter (`triage_core.call_groq`)

The network call itself is the model's input: `provider` is the outcome
of `groq_client.chat.completions.create(...)` followed by `.strip()` —
either an exception message or the message content string. -/

/-- The list `valid_levels` from `call_groq`. -/
def valid_levels : List String := ["critical", "urgent", "moderate", "low"]

/-- The lines of the provider response, as `call_groq` computes them:
strip the content, then split on newlines. -/
def groqLines (content : String) : List String :=
  (splitOnNl (pyStrip content).toList).map String.mk

/-- Parsing part of `call_groq`, applied to the raw message content:
raise on empty stripped content; otherwise scan the lines from the end
for one whose stripped lower-casing is a valid level, then fall back to
the last non-empty line, each returned stripped, lower-cased and
capitalized. -/
def callGroqParse (content : String) : Except String String :=
  if pyStrip content = "" then Except.error "No response from Groq AI"
  else
    match (groqLines content).reverse.find?
        (fun line => valid_levels.contains (pyLower (pyStrip line))) with
    | some line => Except.ok (pyCapitalize (pyLower (pyStrip line)))
    | none =>
      match (groqLines content).reverse.find? (fun line => pyStrip line ≠ "") with
      | some line => Except.ok (pyCapitalize (pyLower (pyStrip line)))
      | none => Except.ok (pyCapitalize (pyStrip content))

/-- `triage_core.call_groq`: every exception inside the `try` block
(provider failure or empty response) is re-raised wrapped in
`"Groq API error: "`. -/
def call_groq (provider : Except String String) : Except String String :=
  match provider with
  | Except.error e => Except.error ("Groq API error: " ++ e)
  | Except.ok content =>
    match callGroqParse content with
    | Except.error e => Except.error ("Groq API error: " ++ e)
    | Except.ok level => Except.ok level

example : call_groq (Except.ok "Critical") = Except.ok "Critical" := by decide
example : call_groq (Except.ok "cRiTiCaL") = Except.ok "Critical" := by decide
example : call_groq (Except.ok "reasoning...\n  LOW  ") = Except.ok "Low" := by decide
example : call_groq (Except.ok "Likely MIGRAINE") = Except.ok "Likely migraine" := by decide
example : call_groq (Except.ok "   ") = Except.error "Groq API error: No response from Groq AI" := by decide
example : call_groq (Except.error "timeout") = Except.error "Groq API error: timeout" := by decide

/-! ## Triage orchestrator (`triage_core.triage_patient`) -/

/-- The row the Supabase insert hands back (`data.data[0]`): the fields
`triage_core` reads from it. -/
structure InsertedRow where
  id : String
  created_at : String
  deriving DecidableEq

/-- The dictionary `triage_patient` returns (the redundant `data` field,
a copy of the inserted row, is omitted). -/
structure TriageRecord where
  triage_level : String
  record_id : Option String
  timestamp : String
  error : Option String
  deriving DecidableEq

/-- `triage_core.triage_patient`.  `provider` is the AI call's outcome,
`store` the Supabase insert's outcome, `now` the value of
`datetime.now().isoformat()`; `patient_info` is stored but never read. -/
def triage_patient (provider : Except String String)
    (store : Except String InsertedRow) (now : String)
    (symptoms_text : String) (patient_info : List (String × String))
    (use_ai : Bool) : TriageRecord :=
  let _ := patient_info
  let triage_level :=
    if use_ai then
      match call_groq provider with
      | Except.ok level => level
      | Except.error _ => rule_based_triage symptoms_text
    else rule_based_triage symptoms_text
  match store with
  | Except.ok row =>
    { triage_level := triage_level, record_id := some row.id,
      timestamp := row.created_at, error := none }
  | Except.error _ =>
    { triage_level := triage_level, record_id := none,
      timestamp := now, error := some "Failed to store in database" }

/-! ## Vitals evaluator (`triage_core.flag_vitals`) -/

/-- The four booleans of the vitals analysis. -/
structure VitalsFlags where
  pulse_flag : Bool
  systolic_flag : Bool
  diastolic_flag : Bool
  any_flag : Bool
  deriving DecidableEq

/-- The flag computation at the top of `flag_vitals`. -/
def computeVitalsFlags (pulse systolicBP diastolicBP : Int) : VitalsFlags :=
  let pulse_flag := decide (pulse < 60) || decide (pulse > 100)
  let systolic_flag := decide (systolicBP < 90) || decide (systolicBP > 160)
  let diastolic_flag := decide (diastolicBP < 60) || decide (diastolicBP > 100)
  let any_flag := pulse_flag || systolic_flag || diastolic_flag
  { pulse_flag := pulse_flag, systolic_flag := systolic_flag,
    diastolic_flag := diastolic_flag, any_flag := any_flag }

/-- The dictionary `flag_vitals` returns (again without the redundant
`data` copy). -/
structure VitalsOutcome where
  flags : VitalsFlags
  record_id : Option String
  timestamp : String
  error : Option String
  deriving DecidableEq

/-- `triage_core.flag_vitals`: compute the flags, then try to store them.
Both the success and the failure branch return the same flags. -/
def flag_vitals (pulse systolicBP diastolicBP : Int)
    (store : Except String InsertedRow) (now : String) : VitalsOutcome :=
  let flags := computeVitalsFlags pulse systolicBP diastolicBP
  match store with
  | Except.ok row =>
    { flags := flags, record_id := some row.id,
      timestamp := row.created_at, error := none }
  | Except.error _ =>
    { flags := flags, record_id := none,
      timestamp := now, error := some "Failed to store in database" }

example : computeVitalsFlags 120 180 95 =
    { pulse_flag := true, systolic_flag := true, diastolic_flag := false,
      any_flag := true } := by decide

/-! ## Request validation (`main.TriageRequest`)

Pydantic first checks the `Field` constraints (`min_length=5`,
`max_length=2000`) on the raw string, then runs the `validate_symptoms`
validator, which rejects blank and PII-bearing text and returns the
stripped string. -/

/-- The `pii_indicators` list from `TriageRequest.validate_symptoms`. -/
def pii_indicators : List String :=
  ["ssn", "social security", "credit card", "phone number"]

/-- The `validate_symptoms` validator body. -/
def validate_symptoms (v : String) : Except String String :=
  if pyStrip v = "" then Except.error "Symptoms cannot be empty"
  else if pii_indicators.any (fun ind => containsSub (pyLower v) ind) then
    Except.error "Symptoms appear to contain sensitive information"
  else Except.ok (pyStrip v)

/-- Validation of the `symptoms` field of a `POST /api/triage` body:
pydantic length constraints on the raw string, then the custom
validator.  The `Except.ok` payload is what reaches `triage_patient`. -/
def triageRequestSymptoms (symptoms : String) : Except String String :=
  if symptoms.length < 5 then
    Except.error "ensure this value has at least 5 characters"
  else if 2000 < symptoms.length then
    Except.error "ensure this value has at most 2000 characters"
  else validate_symptoms symptoms

example : triageRequestSymptoms "  ab  " = Except.ok "ab" := by decide
example : triageRequestSymptoms "ab" =
    Except.error "ensure this value has at least 5 characters" := by decide
example : triageRequestSymptoms "my ssn is 1234" =
    Except.error "Symptoms appear to contain sensitive information" := by decide
example : triageRequestSymptoms "strong headache" = Except.ok "strong headache" := by decide

/-! ## Statistics endpoint (`main.get_triage_stats`)

Only the vitals part matters for the claims.  A fetched vitals record is
modelled by its `any_flag` entry: `none` when the key is absent (then
`record.get('any_flag', False)` yields `False`). -/

/-- Round half to even on an exact rational, Python `round(_, 0)`. -/
def roundHalfEven (q : ℚ) : ℤ :=
  if q - ⌊q⌋ = 1 / 2 then (if ⌊q⌋ % 2 = 0 then ⌊q⌋ else ⌊q⌋ + 1)
  else round q

/-- Python `round(q, 2)` on an exact rational. -/
def pyRound2 (q : ℚ) : ℚ :=
  (roundHalfEven (q * 100) : ℚ) / 100

/-- `sum(1 for record in vitals_records if record.get('any_flag', False))`. -/
def flaggedVitalsCount (records : List (Option Bool)) : ℕ :=
  (records.filter (fun r => r.getD false)).length

/-- The `flag_percentage` entry of the `/api/stats` response:
`round((flagged / len(records) * 100) if records else 0, 2)`. -/
def flag_percentage (records : List (Option Bool)) : ℚ :=
  pyRound2 (if records.isEmpty then 0
    else (flaggedVitalsCount records : ℚ) / (records.length : ℚ) * 100)

example : flag_percentage [] = 0 := by
  norm_num [flag_percentage, pyRound2, roundHalfEven, round_eq]
example : flag_percentage [some true, none, some false] = 3333 / 100 := by
  norm_num [flag_percentage, pyRound2, roundHalfEven, round_eq,
    flaggedVitalsCount, List.filter]
example : flag_percentage [some true, some true] = 100 := by
  norm_num [flag_percentage, pyRound2, roundHalfEven, round_eq,
    flaggedVitalsCount, List.filter]

/-! ## Helper lemmas -/

/-- The four labels the system is supposed to emit. -/
def triageLabels : List String := ["Critical", "Urgent", "Moderate", "Low"]

/-- The rule-based classifier and its spec-worded form agree. -/
lemma rbt_eq_spec (s : String) : rule_based_triage s = ruleBasedTriageSpec s := by
  cases h1 : List.any ["seizure", "loss of consciousness", "coma"]
      (fun kw => containsSub (pyLower s) kw) <;>
  cases h2 : List.any ["vomiting", "blurred vision", "slurred speech"]
      (fun kw => containsSub (pyLower s) kw) <;>
  cases h3 : List.any ["headache", "neck pain"]
      (fun kw => containsSub (pyLower s) kw) <;>
  cases h4 : List.any ["dizziness", "mild pain", "tiredness"]
      (fun kw => containsSub (pyLower s) kw) <;>
  simp [rule_based_triage, ruleBasedTriageSpec, levels, levelMatches,
    List.find?, h1, h2, h3, h4]

/-- Whatever the text, the rule-based classifier emits one of the four labels. -/
lemma rbt_mem_labels (s : String) : rule_based_triage s ∈ triageLabels := by
  show (match levels.find? (levelMatches (pyLower s)) with
        | some li => li.1
        | none => "Moderate") ∈ triageLabels
  cases hf : levels.find? (levelMatches (pyLower s)) with
  | none => simp [triageLabels]
  | some li =>
    have h := List.mem_of_find?_eq_some hf
    simp only [levels, List.mem_cons, List.not_mem_nil, or_false] at h
    rcases h with h | h | h | h <;> simp [h, triageLabels]

/-- `call_groq` on a successful provider call just post-processes
`callGroqParse`, wrapping its error. -/
lemma call_groq_ok_def (content : String) :
    call_groq (Except.ok content) =
      match callGroqParse content with
      | Except.error e => Except.error ("Groq API error: " ++ e)
      | Except.ok level => Except.ok level := rfl

/-- Empty (after stripping) provider content is an error. -/
lemma call_groq_empty (content : String) (h : pyStrip content = "") :
    call_groq (Except.ok content)
      = Except.error "Groq API error: No response from Groq AI" := by
  rw [call_groq_ok_def]
  unfold callGroqParse
  rw [if_pos h]
  rfl

/-- When scanning from the end finds a line whose stripped lower-casing
is a valid level, `call_groq` returns it capitalized. -/
lemma call_groq_find_some (content line : String)
    (hne : ¬ pyStrip content = "")
    (hf : (groqLines content).reverse.find?
        (fun l => valid_levels.contains (pyLower (pyStrip l))) = some line) :
    call_groq (Except.ok content)
      = Except.ok (pyCapitalize (pyLower (pyStrip line))) := by
  rw [call_groq_ok_def]
  unfold callGroqParse
  rw [if_neg hne, hf]

/-- When no line matches a valid level, `call_groq` falls back to the
last non-empty line, stripped, lower-cased and capitalized. -/
lemma call_groq_fallback (content line : String)
    (hne : ¬ pyStrip content = "")
    (hf : (groqLines content).reverse.find?
        (fun l => valid_levels.contains (pyLower (pyStrip l))) = none)
    (hf2 : (groqLines content).reverse.find? (fun l => pyStrip l ≠ "")
        = some line) :
    call_groq (Except.ok content)
      = Except.ok (pyCapitalize (pyLower (pyStrip line))) := by
  rw [call_groq_ok_def]
  unfold callGroqParse
  rw [if_neg hne, hf, hf2]

/-- Capitalizing a valid level word gives one of the four labels. -/
lemma capitalize_valid_label {y : String} (h : valid_levels.contains y = true) :
    pyCapitalize y ∈ triageLabels := by
  have h' : y ∈ valid_levels := by simpa using h
  simp only [valid_levels, List.mem_cons, List.not_mem_nil, or_false] at h'
  rcases h' with h' | h' | h' | h' <;> subst h' <;> decide

/-- The triage level `triage_patient` computes, independent of the store branch. -/
lemma triage_patient_level (provider : Except String String)
    (store : Except String InsertedRow) (now : String) (s : String)
    (pi : List (String × String)) (use_ai : Bool) :
    (triage_patient provider store now s pi use_ai).triage_level =
      (if use_ai then
        match call_groq provider with
        | Except.ok level => level
        | Except.error _ => rule_based_triage s
      else rule_based_triage s) := by
  unfold triage_patient
  cases store <;> rfl

/-! ## Claim theorems -/

/-- C2: `rule_based_triage` lower-cases its input and tests the four
keyword groups in the fixed priority order Critical, Urgent, Moderate,
Low, returning the label of the first group with a substring match and
`"Moderate"` when nothing matches; in particular a Critical keyword wins
over anything else, and `"seizure and tiredness"` classifies as
`"Critical"`. -/
theorem rule_based_triage_priority_order :
    (∀ s, rule_based_triage s = ruleBasedTriageSpec s ∧
      (List.any ["seizure", "loss of consciousness", "coma"]
          (fun kw => containsSub (pyLower s) kw) = true →
        rule_based_triage s = "Critical")) ∧
    rule_based_triage "seizure and tiredness" = "Critical" := by
  constructor
  · intro s
    refine ⟨rbt_eq_spec s, fun h => ?_⟩
    rw [rbt_eq_spec s]
    unfold ruleBasedTriageSpec
    simp [h]
  · decide

/-- Witness for C2 at the concrete text `"seizure and tiredness"`, which
contains both a Critical and a Low keyword. -/
theorem rule_based_triage_priority_order_witness :
    rule_based_triage "seizure and tiredness" = "Critical" :=
  (rule_based_triage_priority_order.1 "seizure and tiredness").2 (by decide)

/-- C9: `rule_based_triage` is total: on every string (the empty string
included) it returns one of exactly the four labels; with no keyword
match, the empty string included, it returns `"Moderate"`. -/
theorem rule_based_triage_total :
    (∀ s, rule_based_triage s ∈ triageLabels) ∧
    rule_based_triage "" = "Moderate" ∧
    (∀ s, (levels.all fun li => ! levelMatches (pyLower s) li) = true →
      rule_based_triage s = "Moderate") := by
  refine ⟨rbt_mem_labels, by decide, fun s h => ?_⟩
  have hnone : levels.find? (levelMatches (pyLower s)) = none := by
    apply List.find?_eq_none.mpr
    intro a ha
    have h2 := List.all_eq_true.mp h a ha
    simp only [Bool.not_eq_true'] at h2
    simp [h2]
  show (match levels.find? (levelMatches (pyLower s)) with
        | some li => li.1
        | none => "Moderate") = "Moderate"
  rw [hnone]

/-- Witness for C9 at a keyword-free concrete text. -/
theorem rule_based_triage_total_witness :
    rule_based_triage "patient feels generally unwell" = "Moderate" :=
  rule_based_triage_total.2.2 "patient feels generally unwell" (by decide)

/-- C1: when `use_ai` is true and the AI call errors, `triage_patient`
uses the rule-based label and surfaces no AI error; when `use_ai` is
false the label is `rule_based_triage` of the text, independent of the
AI adapter; with the AI forced to fail,
`triage_patient("mild headache", {}, true)` yields `"Moderate"`, the
rule-based label. -/
theorem triage_patient_ai_fallback :
    (∀ provider msg store now s pi, call_groq provider = Except.error msg →
      (triage_patient provider store now s pi true).triage_level
        = rule_based_triage s) ∧
    (∀ provider provider' store now s pi,
      (triage_patient provider store now s pi false).triage_level
        = (triage_patient provider' store now s pi false).triage_level) ∧
    (∀ provider store now s pi,
      (triage_patient provider store now s pi false).triage_level
        = rule_based_triage s) ∧
    (∀ e row now pi,
      (triage_patient (Except.error e) (Except.ok row) now "mild headache" pi
          true).triage_level = "Moderate" ∧
      (triage_patient (Except.error e) (Except.ok row) now "mild headache" pi
          true).error = none ∧
      rule_based_triage "mild headache" = "Moderate") := by
  refine ⟨fun provider msg store now s pi h => ?_, ?_, ?_, ?_⟩
  · rw [triage_patient_level, h]
    simp
  · intro provider provider' store now s pi
    rw [triage_patient_level, triage_patient_level]
    simp
  · intro provider store now s pi
    rw [triage_patient_level]
    simp
  · intro e row now pi
    refine ⟨?_, rfl, by decide⟩
    have hcg : call_groq (Except.error e)
        = Except.error ("Groq API error: " ++ e) := rfl
    rw [triage_patient_level, hcg]
    simp
    decide

/-- Witness for C1: AI forced to fail on `"mild headache"`. -/
theorem triage_patient_ai_fallback_witness :
    (triage_patient (Except.error "forced failure") (Except.ok ⟨"id1", "ts1"⟩)
        "now1" "mild headache" [] true).triage_level
      = rule_based_triage "mild headache" :=
  triage_patient_ai_fallback.1 (Except.error "forced failure")
    "Groq API error: forced failure" (Except.ok ⟨"id1", "ts1"⟩) "now1"
    "mild headache" [] (by decide)

/-- C5: a failing store insert leaves the computed triage label
unchanged, with `record_id = none`, the persistence error marker set and
the wall-clock timestamp; a succeeding insert returns the store's id and
timestamp and no error marker. -/
theorem triage_patient_persistence_isolation :
    ∀ provider store now s pi use_ai err (row : InsertedRow),
      (triage_patient provider (Except.error err) now s pi use_ai).triage_level
        = (triage_patient provider store now s pi use_ai).triage_level ∧
      (triage_patient provider (Except.error err) now s pi use_ai).record_id
        = none ∧
      (triage_patient provider (Except.error err) now s pi use_ai).error
        = some "Failed to store in database" ∧
      (triage_patient provider (Except.error err) now s pi use_ai).timestamp
        = now ∧
      (triage_patient provider (Except.ok row) now s pi use_ai).record_id
        = some row.id ∧
      (triage_patient provider (Except.ok row) now s pi use_ai).timestamp
        = row.created_at ∧
      (triage_patient provider (Except.ok row) now s pi use_ai).error
        = none := by
  intro provider store now s pi use_ai err row
  refine ⟨?_, rfl, rfl, rfl, rfl, rfl, rfl⟩
  rw [triage_patient_level, triage_patient_level]

/-- C3: the vitals flags are exactly the fixed threshold comparisons,
with the boundary values 60/59 (pulse) and 160/161 (systolic) on the
expected sides. -/
theorem flag_vitals_thresholds :
    (∀ p s d : ℤ, 30 ≤ p → p ≤ 250 → 60 ≤ s → s ≤ 300 → 30 ≤ d → d ≤ 200 →
      ((computeVitalsFlags p s d).pulse_flag = true ↔ (p < 60 ∨ 100 < p)) ∧
      ((computeVitalsFlags p s d).systolic_flag = true ↔ (s < 90 ∨ 160 < s)) ∧
      ((computeVitalsFlags p s d).diastolic_flag = true ↔ (d < 60 ∨ 100 < d))) ∧
    (computeVitalsFlags 60 120 80).pulse_flag = false ∧
    (computeVitalsFlags 59 120 80).pulse_flag = true ∧
    (computeVitalsFlags 80 160 80).systolic_flag = false ∧
    (computeVitalsFlags 80 161 80).systolic_flag = true := by
  refine ⟨fun p s d _ _ _ _ _ _ => ?_, by decide, by decide, by decide, by decide⟩
  simp [computeVitalsFlags]

/-- Witness for C3 at the in-range reading (72, 120, 80). -/
theorem flag_vitals_thresholds_witness :
    ((computeVitalsFlags 72 120 80).pulse_flag = true
      ↔ ((72 : ℤ) < 60 ∨ 100 < (72 : ℤ))) ∧
    ((computeVitalsFlags 72 120 80).systolic_flag = true
      ↔ ((120 : ℤ) < 90 ∨ 160 < (120 : ℤ))) ∧
    ((computeVitalsFlags 72 120 80).diastolic_flag = true
      ↔ ((80 : ℤ) < 60 ∨ 100 < (80 : ℤ))) :=
  flag_vitals_thresholds.1 72 120 80 (by decide) (by decide) (by decide)
    (by decide) (by decide) (by decide)

/-- C4: `any_flag` is always the OR of the three individual flags, and
`flag_vitals` returns exactly the flags `computeVitalsFlags` builds, on
both the success and the failure branch of the store. -/
theorem vitals_any_flag_invariant :
    ∀ (p s d : ℤ) (store : Except String InsertedRow) (now : String),
      (computeVitalsFlags p s d).any_flag
        = ((computeVitalsFlags p s d).pulse_flag
            || (computeVitalsFlags p s d).systolic_flag
            || (computeVitalsFlags p s d).diastolic_flag) ∧
      (flag_vitals p s d store now).flags = computeVitalsFlags p s d := by
  intro p s d store now
  refine ⟨rfl, ?_⟩
  unfold flag_vitals
  cases store <;> rfl

/-- C6 counterexample: the response `"cRiTiCaL"` has exactly one line,
`"cRiTiCaL"`, which matches a label case-insensitively, yet the adapter
does not return that line: it returns the canonical `"Critical"`. -/
theorem call_groq_counterexample :
    groqLines "cRiTiCaL" = ["cRiTiCaL"] ∧
    call_groq (Except.ok "cRiTiCaL") = Except.ok "Critical" ∧
    ("Critical" : String) ≠ "cRiTiCaL" := by
  refine ⟨by decide, by decide, by decide⟩

/-- C6 (amended): scanning from the end, the adapter returns the
canonical capitalization of the last line whose stripped lower-casing is
one of the four labels (hence always one of `Critical`, `Urgent`,
`Moderate`, `Low`); with no such line it returns the last non-empty line
stripped, lower-cased and capitalized; provider errors and blank
responses are signaled as errors, never mapped to a label. -/
theorem call_groq_parse_behavior :
    (∀ e, call_groq (Except.error e)
        = Except.error ("Groq API error: " ++ e)) ∧
    (∀ content, pyStrip content = "" →
      call_groq (Except.ok content)
        = Except.error "Groq API error: No response from Groq AI") ∧
    (∀ content line, ¬ pyStrip content = "" →
      (groqLines content).reverse.find?
          (fun l => valid_levels.contains (pyLower (pyStrip l))) = some line →
      call_groq (Except.ok content)
          = Except.ok (pyCapitalize (pyLower (pyStrip line))) ∧
        pyCapitalize (pyLower (pyStrip line)) ∈ triageLabels) ∧
    (∀ content line, ¬ pyStrip content = "" →
      (groqLines content).reverse.find?
          (fun l => valid_levels.contains (pyLower (pyStrip l))) = none →
      (groqLines content).reverse.find? (fun l => pyStrip l ≠ "")
          = some line →
      call_groq (Except.ok content)
        = Except.ok (pyCapitalize (pyLower (pyStrip line)))) := by
  refine ⟨fun e => rfl, call_groq_empty, ?_, call_groq_fallback⟩
  intro content line hne hf
  refine ⟨call_groq_find_some content line hne hf, ?_⟩
  have hp := List.find?_some hf
  change valid_levels.contains (pyLower (pyStrip line)) = true at hp
  exact capitalize_valid_label hp

/-- Witness for C6 (amended) on the multi-line response
`"Critical\nlow"`: the last matching line wins. -/
theorem call_groq_parse_behavior_witness :
    call_groq (Except.ok "Critical\nlow")
        = Except.ok (pyCapitalize (pyLower (pyStrip "low"))) ∧
      pyCapitalize (pyLower (pyStrip "low")) ∈ triageLabels :=
  call_groq_parse_behavior.2.2.1 "Critical\nlow" "low" (by decide) (by decide)

/-- C7 counterexample: with the AI path on and the provider succeeding
with text containing no label line, the pipeline's triage level is that
text capitalized — not one of the four severity levels. -/
theorem triage_level_counterexample :
    (triage_patient (Except.ok "unclear symptoms") (Except.error "down")
        "T" "strong headache" [] true).triage_level = "Unclear symptoms" ∧
    ("Unclear symptoms" : String) ∉ triageLabels := by
  refine ⟨by decide, by decide⟩

/-- C7 (amended): the pipeline's triage level is one of the four labels
whenever the rule-based path is taken (`use_ai` false, or the AI call
fails) and whenever the AI response contains a line matching a label;
only an AI success whose response has no label line can escape the four
labels. -/
theorem triage_level_in_labels :
    (∀ provider store now s pi,
      (triage_patient provider store now s pi false).triage_level
        ∈ triageLabels) ∧
    (∀ provider msg store now s pi, call_groq provider = Except.error msg →
      (triage_patient provider store now s pi true).triage_level
        ∈ triageLabels) ∧
    (∀ content line store now s pi,
      ¬ pyStrip content = "" →
      (groqLines content).reverse.find?
          (fun l => valid_levels.contains (pyLower (pyStrip l))) = some line →
      (triage_patient (Except.ok content) store now s pi true).triage_level
        ∈ triageLabels) := by
  refine ⟨?_, ?_, ?_⟩
  · intro provider store now s pi
    rw [triage_patient_level]
    simpa using rbt_mem_labels s
  · intro provider msg store now s pi h
    rw [triage_patient_level, h]
    simpa using rbt_mem_labels s
  · intro content line store now s pi hne hf
    rw [triage_patient_level, call_groq_find_some content line hne hf]
    have hp := List.find?_some hf
    change valid_levels.contains (pyLower (pyStrip line)) = true at hp
    simpa using capitalize_valid_label hp

/-- Witness for C7 (amended): AI failure path at a concrete input. -/
theorem triage_level_in_labels_witness :
    (triage_patient (Except.error "net down") (Except.ok ⟨"id9", "ts9"⟩)
        "now9" "some dizziness" [] true).triage_level ∈ triageLabels :=
  triage_level_in_labels.2.1 (Except.error "net down")
    "Groq API error: net down" (Except.ok ⟨"id9", "ts9"⟩) "now9"
    "some dizziness" [] (by decide)

/-- C8 counterexample: `"  ab  "` has 6 raw characters, so pydantic's
`min_length=5` accepts it, although after trimming only 2 characters
remain — the claimed 5-character minimum on the trimmed text is not
enforced. -/
theorem triage_request_counterexample :
    triageRequestSymptoms "  ab  " = Except.ok "ab" ∧
    (pyStrip "  ab  ").length = 2 ∧
    ¬ 5 ≤ (pyStrip "  ab  ").length := by
  refine ⟨by decide, by decide, by decide⟩

/-- C8 (amended): a `POST /api/triage` symptoms field is accepted iff
the RAW text has 5–2000 characters, is non-blank after trimming and
contains no PII marker (case-insensitively); on acceptance exactly the
trimmed text reaches the triage core. -/
theorem triage_request_validation :
    ∀ s, ((∃ t, triageRequestSymptoms s = Except.ok t) ↔
        (5 ≤ s.length ∧ s.length ≤ 2000 ∧ ¬ pyStrip s = "" ∧
          ∀ ind ∈ pii_indicators, ¬ containsSub (pyLower s) ind = true)) ∧
      (∀ t, triageRequestSymptoms s = Except.ok t → t = pyStrip s) := by
  intro s
  unfold triageRequestSymptoms validate_symptoms
  constructor
  · constructor
    · rintro ⟨t, ht⟩
      split_ifs at ht with h1 h2 h3 h4
      refine ⟨Nat.not_lt.mp h1, Nat.not_lt.mp h2, h3, ?_⟩
      intro ind hmem hc
      exact h4 (List.any_eq_true.mpr ⟨ind, hmem, hc⟩)
    · rintro ⟨h5, h20, h3, h4⟩
      have h4' : ¬ pii_indicators.any
          (fun ind => containsSub (pyLower s) ind) = true := by
        intro hany
        obtain ⟨ind, hmem, hc⟩ := List.any_eq_true.mp hany
        exact (h4 ind hmem) hc
      rw [if_neg (Nat.not_lt.mpr h5), if_neg (Nat.not_lt.mpr h20),
        if_neg h3, if_neg h4']
      exact ⟨pyStrip s, rfl⟩
  · intro t ht
    split_ifs at ht
    injection ht with h
    exact h.symm

/-- Witness for C8 (amended): an accepted request passes its trimmed
text through unchanged. -/
theorem triage_request_validation_witness :
    ("strong headache" : String) = pyStrip "strong headache" :=
  (triage_request_validation "strong headache").2 "strong headache" (by decide)

/-- C10: the `/api/stats` flag percentage is total: `0` for an empty
record set, and otherwise the flagged share times 100 rounded to two
decimals, with a provably non-zero denominator. -/
theorem stats_flag_percentage_safe :
    flag_percentage [] = 0 ∧
    ∀ records : List (Option Bool), records ≠ [] →
      ((records.length : ℚ) ≠ 0 ∧
        flag_percentage records
          = pyRound2 ((flaggedVitalsCount records : ℚ)
              / (records.length : ℚ) * 100)) := by
  constructor
  · norm_num [flag_percentage, pyRound2, roundHalfEven, round_eq]
  · intro records h
    cases records with
    | nil => exact absurd rfl h
    | cons a t =>
      refine ⟨?_, rfl⟩
      have hlen : (a :: t).length ≠ 0 := by simp
      exact Nat.cast_ne_zero.mpr hlen

/-- Witness for C10 on two records, one flagged. -/
theorem stats_flag_percentage_safe_witness :
    flag_percentage [some true, none]
      = pyRound2 ((flaggedVitalsCount [some true, none] : ℚ)
          / (([some true, none] : List (Option Bool)).length : ℚ) * 100) :=
  ((stats_flag_percentage_safe.2 [some true, none]) (by decide)).2

end TFlow
